import Mathlib

/-!
Verification of the VOC-to-YOLO dataset converter
(`scripts/convert_voc_to_yolo.py`) against its specification.

The converter is embedded shallowly:
* an annotation XML file becomes a `RawXml` record (well-formedness flag,
  optional `size/width` and `size/height` fields, and the object list);
* Python floats become `ℚ` (the script's arithmetic is exact on the
  rationals it actually forms: sums, differences and divisions of parsed
  coordinates);
* Python exceptions become `Except VocError`;
* the filesystem is abstracted by boolean existence predicates and by the
  list of XML files found by the recursive glob;
* `random.shuffle` becomes an arbitrary function parameter `sh`.
-/

namespace VocYolo

/-- One `<object>` entry of a PascalVOC annotation file: the class-label
string from `<name>` and the pixel bounding box from `<bndbox>`. -/
structure VocObject where
  name : String
  xmin : ℚ
  ymin : ℚ
  xmax : ℚ
  ymax : ℚ

/-- A raw annotation XML file as seen by `ET.parse` plus the `find` calls:
whether the file is well-formed XML, the optional integer text of
`size/width` and `size/height` (`none` models a missing or non-numeric
field), and the `<object>` entries in document order. -/
structure RawXml where
  wellFormed : Bool
  width : Option ℤ
  height : Option ℤ
  objects : List VocObject

/-- The uncaught Python exceptions of the converter: an XML syntax error
from `ET.parse`, or the `AttributeError`/`ValueError` raised when a
required size field is absent or non-numeric. -/
inductive VocError where
  | xmlSyntaxError : VocError
  | missingField : String → VocError

/-- A normalized YOLO box `(class_id, x_center, y_center, width, height)`. -/
structure Box where
  cls : ℕ
  x_center : ℚ
  y_center : ℚ
  width : ℚ
  height : ℚ

/-- The fixed class mapping of the script (`class_mapping` dict):
D00 ↦ 0, D10 ↦ 1, D20 ↦ 2, D40 ↦ 3, everything else absent. -/
def class_mapping (s : String) : Option ℕ :=
  if s = "D00" then some 0
  else if s = "D10" then some 1
  else if s = "D20" then some 2
  else if s = "D40" then some 3
  else none

/-- Conversion of one `<object>` to a normalized box, exactly the loop body
of `parse_voc_annotation`: objects with unmapped labels yield `none`
(the `continue`), mapped ones yield the normalized center-format box. -/
def toBox (w h : ℤ) (o : VocObject) : Option Box :=
  match class_mapping o.name with
  | none => none
  | some cid =>
      some { cls := cid
           , x_center := (o.xmin + o.xmax) / 2 / (w : ℚ)
           , y_center := (o.ymin + o.ymax) / 2 / (h : ℚ)
           , width := (o.xmax - o.xmin) / (w : ℚ)
           , height := (o.ymax - o.ymin) / (h : ℚ) }

/-- The parser `parse_voc_annotation`: malformed XML raises, a missing
`size/width` or `size/height` raises, otherwise the retained boxes are
collected in document order. -/
def parse_voc_annotation (x : RawXml) : Except VocError (List Box) :=
  if x.wellFormed = false then .error .xmlSyntaxError
  else
    match x.width with
    | none => .error (.missingField "size/width")
    | some w =>
        match x.height with
        | none => .error (.missingField "size/height")
        | some h => .ok (x.objects.filterMap (toBox w h))

/-- The ASCII digit character for `d < 10`. -/
def digitChar (d : ℕ) : Char := Char.ofNat (48 + d)

/-- Six-digit zero-padded decimal rendering of `n < 10^6`, the fractional
part produced by Python's fixed-point `:.6f` formatting. -/
def pad6 (n : ℕ) : String :=
  String.mk [ digitChar (n / 100000 % 10), digitChar (n / 10000 % 10)
            , digitChar (n / 1000 % 10), digitChar (n / 100 % 10)
            , digitChar (n / 10 % 10), digitChar (n % 10) ]

/-- Integer part, decimal point and six fractional digits of `n / 10^6`. -/
def fmtParts (n : ℕ) : String :=
  Nat.repr (n / 1000000) ++ "." ++ pad6 (n % 1000000)

/-- Fixed-point rendering of a nonnegative rational with 6 decimals. -/
def format6core (q : ℚ) : String :=
  fmtParts ((round (q * 1000000)).toNat)

/-- Python's `f"{q:.6f}"` formatting, idealized over `ℚ`: round the value
to 6 decimal places and print it in sign-magnitude form with exactly six
fractional digits. -/
def format6 (q : ℚ) : String :=
  if q < 0 then "-" ++ format6core (-q) else format6core q

/-- One written label line, the f-string
`f"{box[0]} {box[1]:.6f} {box[2]:.6f} {box[3]:.6f} {box[4]:.6f}\n"`. -/
def boxLine (b : Box) : String :=
  Nat.repr b.cls ++ " " ++ format6 b.x_center ++ " " ++ format6 b.y_center
    ++ " " ++ format6 b.width ++ " " ++ format6 b.height ++ "\n"

/-- The full text written to a label file: one line per box. -/
def labelFileContent (boxes : List Box) : String :=
  String.join (boxes.map boxLine)

/-- Path concatenation, standing in for `os.path.join`. -/
def joinPath (d f : String) : String := d ++ "/" ++ f

/-- The fixed ordered image-extension candidates tried by `process_set`. -/
def imageExts : List String := [".jpg", ".jpeg", ".png"]

/-- Image lookup of `process_set`: try `base + ext` inside `imagesDir` for
each extension in order, first existing file wins. -/
def findImage (ex : String → Bool) (imagesDir base : String) : Option String :=
  (imageExts.find? (fun e => ex (joinPath imagesDir (base ++ e)))).map
    (fun e => joinPath imagesDir (base ++ e))

/-- One output produced for one processed annotation entry: the copied
image's source path and the written label file's name and content. -/
structure FileOutput where
  imageSrc : String
  labelName : String
  labelContent : String

/-- The File-Set Processor `process_set` over entries
`(base name without extension, annotation file)`: entries with no matching
image are skipped, a parse error propagates (nothing catches it), entries
with an empty box list are skipped, and the rest copy the image and write
the label file. -/
def process_set (ex : String → Bool) (imagesDir : String)
    (entries : List (String × RawXml)) : Except VocError (List FileOutput) :=
  match entries with
  | [] => .ok []
  | (base, xml) :: rest =>
      match findImage ex imagesDir base with
      | none => process_set ex imagesDir rest
      | some imgPath =>
          match parse_voc_annotation xml with
          | .error e => .error e
          | .ok boxes =>
              if boxes.isEmpty then process_set ex imagesDir rest
              else
                match process_set ex imagesDir rest with
                | .error e => .error e
                | .ok outs =>
                    .ok ({ imageSrc := imgPath
                         , labelName := base ++ ".txt"
                         , labelContent := labelFileContent boxes } :: outs)

/-- Python's `int()` applied to a real value: truncation toward zero. -/
def pyInt (q : ℚ) : ℤ := if q < 0 then -⌊-q⌋ else ⌊q⌋

/-- The effective index of a Python slice bound `i` on a list of length
`len`: negative bounds count from the end (clamped at 0), nonnegative
bounds are clamped at `len`. -/
def sliceIdx (len : ℕ) (i : ℤ) : ℕ :=
  if i < 0 then ((len : ℤ) + i).toNat else min i.toNat len

/-- Python's `xs[:i]`. -/
def pySliceTake {α : Type} (xs : List α) (i : ℤ) : List α :=
  xs.take (sliceIdx xs.length i)

/-- Python's `xs[i:]`. -/
def pySliceDrop {α : Type} (xs : List α) (i : ℤ) : List α :=
  xs.drop (sliceIdx xs.length i)

/-- The split point `int(len(xml_files) * (1 - val_split))`. -/
def train_count (n : ℕ) (val_split : ℚ) : ℤ :=
  pyInt ((n : ℚ) * (1 - val_split))

/-- One dataset subdirectory of the `voc` root, abstracting the
filesystem: presence of the `train` folder, existence of folders inside
`train` (queried with names such as `images` or the annotation-folder
candidates), the XML files the recursive glob finds under a given
annotation folder, and existence of image files. -/
structure Subdir where
  hasTrain : Bool
  dirExists : String → Bool
  xmlIn : String → List (String × RawXml)
  imagesDir : String
  imageExists : String → Bool

/-- The fixed ordered annotation-folder candidates of `convert_to_yolo`. -/
def annoCandidates : List String :=
  ["annotations", "annotation", "Annotations", "xmls"]

/-- Annotation-folder selection: the first existing candidate wins. -/
def findAnnoDir (ex : String → Bool) : Option String :=
  annoCandidates.find? ex

/-- The per-subdirectory body of `convert_to_yolo`: skip (with empty
output) when the `train` folder, the `images` folder or every candidate
annotation folder is missing or no XML file is found; otherwise shuffle,
split at `train_count` and run `process_set` on both halves. `sh` stands
for the unseeded `random.shuffle`. -/
def convert_subdir (sh : List (String × RawXml) → List (String × RawXml))
    (val_split : ℚ) (sd : Subdir) :
    Except VocError (List FileOutput × List FileOutput) :=
  if sd.hasTrain = false then .ok ([], [])
  else if sd.dirExists "images" = false then .ok ([], [])
  else
    match findAnnoDir sd.dirExists with
    | none => .ok ([], [])
    | some d =>
        if (sd.xmlIn d).isEmpty then .ok ([], [])
        else
          match process_set sd.imageExists sd.imagesDir
              (pySliceTake (sh (sd.xmlIn d))
                (train_count (sh (sd.xmlIn d)).length val_split)) with
          | .error e => .error e
          | .ok tr =>
              match process_set sd.imageExists sd.imagesDir
                  (pySliceDrop (sh (sd.xmlIn d))
                    (train_count (sh (sd.xmlIn d)).length val_split)) with
              | .error e => .error e
              | .ok va => .ok (tr, va)

/-- The orchestrator loop of `convert_to_yolo` over the dataset
subdirectories; an uncaught exception aborts the remaining iterations. -/
def convert_to_yolo (sh : List (String × RawXml) → List (String × RawXml))
    (val_split : ℚ) (sds : List Subdir) :
    Except VocError (List (List FileOutput × List FileOutput)) :=
  match sds with
  | [] => .ok []
  | sd :: rest =>
      match convert_subdir sh val_split sd with
      | .error e => .error e
      | .ok r =>
          match convert_to_yolo sh val_split rest with
          | .error e => .error e
          | .ok rs => .ok (r :: rs)

/-- The annotation of the spec's worked example: a 640×480 image with one
`D00` object at `(xmin, ymin, xmax, ymax) = (100, 100, 300, 200)`. -/
def exampleXml : RawXml :=
  { wellFormed := true, width := some 640, height := some 480
  , objects := [{ name := "D00", xmin := 100, ymin := 100, xmax := 300, ymax := 200 }] }

/-- The normalized box the converter produces for `exampleXml`. -/
def exampleBox : Box :=
  { cls := 0, x_center := 5/16, y_center := 5/16, width := 5/16, height := 5/24 }

/-- A malformed annotation file: `ET.parse` raises on it. -/
def badXml : RawXml :=
  { wellFormed := false, width := some 1, height := some 1, objects := [] }

/-- Existence predicate of a filesystem holding exactly `imgs/a.jpg`. -/
def exJpg : String → Bool := fun s => s == "imgs/a.jpg"

/-- A dataset subdirectory with a `train` folder but nothing inside it. -/
def emptySubdir : Subdir :=
  { hasTrain := true, dirExists := fun _ => false, xmlIn := fun _ => []
  , imagesDir := "imgs", imageExists := fun _ => false }

/-- Whether a computation finished without an uncaught exception. -/
def succeeds {ε α : Type} (r : Except ε α) : Bool :=
  match r with
  | .ok _ => true
  | .error _ => false

theorem format6_of_nonneg (q : ℚ) (h : ¬ q < 0) :
    format6 q = fmtParts ((round (q * 1000000)).toNat) := by
  rw [format6, if_neg h]; rfl

theorem pad6_length (n : ℕ) : (pad6 n).length = 6 := rfl

theorem format6_split (q : ℚ) :
    ∃ pre fr : String, format6 q = pre ++ "." ++ fr ∧ fr.length = 6 := by
  by_cases h : q < 0
  · refine ⟨"-" ++ Nat.repr (((round (-q * 1000000)).toNat) / 1000000),
      pad6 (((round (-q * 1000000)).toNat) % 1000000), ?_, pad6_length _⟩
    rw [format6, if_pos h, format6core, fmtParts]
    simp [String.append_assoc]
  · exact ⟨Nat.repr (((round (q * 1000000)).toNat) / 1000000),
      pad6 (((round (q * 1000000)).toNat) % 1000000),
      format6_of_nonneg q h, pad6_length _⟩

theorem format6_val_x : format6 ((5 : ℚ)/16) = "0.312500" := by
  rw [format6_of_nonneg _ (by norm_num)]
  have hr : round ((5 : ℚ)/16 * 1000000) = 312500 := by norm_num [round_eq]
  rw [hr]; decide

theorem format6_val_h : format6 ((5 : ℚ)/24) = "0.208333" := by
  rw [format6_of_nonneg _ (by norm_num)]
  have hr : round ((5 : ℚ)/24 * 1000000) = 208333 := by norm_num [round_eq]
  rw [hr]; decide

theorem forall2_filter_filterMap {α β : Type} (f : α → Option β) (l : List α) :
    List.Forall₂ (fun a b => f a = some b)
      (l.filter (fun a => (f a).isSome)) (l.filterMap f) := by
  induction l with
  | nil => simp
  | cons a l ih =>
      cases h : f a with
      | none => simpa [List.filter_cons, List.filterMap_cons, h] using ih
      | some b => simpa [List.filter_cons, List.filterMap_cons, h] using ih

theorem toBox_isSome (w h : ℤ) (o : VocObject) :
    (toBox w h o).isSome = (class_mapping o.name).isSome := by
  cases hc : class_mapping o.name <;> simp [toBox, hc]

theorem parse_example : parse_voc_annotation exampleXml = .ok [exampleBox] := by
  have h0 : toBox 640 480 { name := "D00", xmin := 100, ymin := 100
                          , xmax := 300, ymax := 200 } = some exampleBox := by
    rw [toBox, show class_mapping "D00" = some 0 from rfl, exampleBox]
    norm_num [Option.some.injEq, Box.mk.injEq]
  show Except.ok (List.filterMap (toBox 640 480)
      [{ name := "D00", xmin := 100, ymin := 100, xmax := 300, ymax := 200 }])
    = Except.ok [exampleBox]
  rw [List.filterMap_cons, h0]
  rfl

/-- Claim C1: every box retained by the parser carries exactly the
normalized coordinates `x_center = (xmin + xmax) / 2 / image_width`,
`y_center = (ymin + ymax) / 2 / image_height`,
`width = (xmax - xmin) / image_width`,
`height = (ymax - ymin) / image_height`, and on the spec's worked example
(640×480, box (100, 100, 300, 200)) the emitted line is
`0 0.312500 0.312500 0.312500 0.208333`. -/
theorem c1_normalized_box_formulas :
    (∀ (x : RawXml) (w h : ℤ) (boxes : List Box) (b : Box),
      x.width = some w → x.height = some h →
      parse_voc_annotation x = .ok boxes → b ∈ boxes →
      ∃ o, o ∈ x.objects ∧ class_mapping o.name = some b.cls ∧
        b.x_center = (o.xmin + o.xmax) / 2 / (w : ℚ) ∧
        b.y_center = (o.ymin + o.ymax) / 2 / (h : ℚ) ∧
        b.width = (o.xmax - o.xmin) / (w : ℚ) ∧
        b.height = (o.ymax - o.ymin) / (h : ℚ)) ∧
    parse_voc_annotation exampleXml = .ok [exampleBox] ∧
    boxLine exampleBox = "0 0.312500 0.312500 0.312500 0.208333\n" := by
  refine ⟨?_, parse_example, ?_⟩
  · intro x w h boxes b hw hh hp hb
    unfold parse_voc_annotation at hp
    cases hwf : x.wellFormed with
    | false => rw [hwf] at hp; simp at hp
    | true =>
        rw [hwf, hw, hh] at hp
        simp only [Bool.true_eq_false, if_false, Except.ok.injEq] at hp
        subst hp
        rw [List.mem_filterMap] at hb
        obtain ⟨o, ho, hob⟩ := hb
        refine ⟨o, ho, ?_⟩
        cases hc : class_mapping o.name with
        | none => rw [toBox, hc] at hob; exact absurd hob (by simp)
        | some cid =>
            rw [toBox, hc] at hob
            simp only [Option.some.injEq] at hob
            subst hob
            exact ⟨rfl, rfl, rfl, rfl, rfl⟩
  · rw [boxLine]
    rw [show exampleBox.cls = 0 from rfl,
        show exampleBox.x_center = (5 : ℚ)/16 from rfl,
        show exampleBox.y_center = (5 : ℚ)/16 from rfl,
        show exampleBox.width = (5 : ℚ)/16 from rfl,
        show exampleBox.height = (5 : ℚ)/24 from rfl,
        format6_val_x, format6_val_h]
    decide

/-- Witness for C1 at the worked example. -/
theorem c1_normalized_box_formulas_witness :
    ∃ o, o ∈ exampleXml.objects ∧ class_mapping o.name = some exampleBox.cls ∧
      exampleBox.x_center = (o.xmin + o.xmax) / 2 / ((640 : ℤ) : ℚ) ∧
      exampleBox.y_center = (o.ymin + o.ymax) / 2 / ((480 : ℤ) : ℚ) ∧
      exampleBox.width = (o.xmax - o.xmin) / ((640 : ℤ) : ℚ) ∧
      exampleBox.height = (o.ymax - o.ymin) / ((480 : ℤ) : ℚ) :=
  c1_normalized_box_formulas.1 exampleXml 640 480 [exampleBox] exampleBox
    rfl rfl parse_example (List.mem_singleton.mpr rfl)

/-- Claim C2: for a non-empty box list the label file is exactly one line
per box, `<class_id> <x_center> <y_center> <width> <height>`, the class id
in plain decimal, every float with exactly six digits after the decimal
point, fields separated by single spaces, each line ended by a newline. -/
theorem c2_label_file_format (boxes : List Box) (hne : boxes ≠ []) :
    ∃ lines : List String,
      labelFileContent boxes = String.join lines ∧
      lines.length = boxes.length ∧
      List.Forall₂ (fun (b : Box) (l : String) =>
        l = Nat.repr b.cls ++ " " ++ format6 b.x_center ++ " "
            ++ format6 b.y_center ++ " " ++ format6 b.width ++ " "
            ++ format6 b.height ++ "\n" ∧
        ∀ v ∈ [b.x_center, b.y_center, b.width, b.height],
          ∃ pre fr : String, format6 v = pre ++ "." ++ fr ∧ fr.length = 6)
        boxes lines := by
  refine ⟨boxes.map boxLine, rfl, boxes.length_map boxLine, ?_⟩
  rw [List.forall₂_map_right_iff]
  refine List.forall₂_same.mpr (fun b _ => ⟨rfl, ?_⟩)
  intro v _
  exact format6_split v

/-- Witness for C2 on the one-box list of the worked example. -/
theorem c2_label_file_format_witness :
    ∃ lines : List String,
      labelFileContent [exampleBox] = String.join lines ∧
      lines.length = [exampleBox].length ∧
      List.Forall₂ (fun (b : Box) (l : String) =>
        l = Nat.repr b.cls ++ " " ++ format6 b.x_center ++ " "
            ++ format6 b.y_center ++ " " ++ format6 b.width ++ " "
            ++ format6 b.height ++ "\n" ∧
        ∀ v ∈ [b.x_center, b.y_center, b.width, b.height],
          ∃ pre fr : String, format6 v = pre ++ "." ++ fr ∧ fr.length = 6)
        [exampleBox] lines :=
  c2_label_file_format [exampleBox] (List.cons_ne_nil _ _)

/-- Claim C4: the class mapping is exactly {D00 ↦ 0, D10 ↦ 1, D20 ↦ 2,
D40 ↦ 3}; the parser returns exactly the objects whose label is mapped, in
document order, and an unmapped object is silently omitted: removing it
from the object list leaves the parser's result unchanged. -/
theorem c4_unmapped_objects_dropped :
    (class_mapping "D00" = some 0 ∧ class_mapping "D10" = some 1 ∧
     class_mapping "D20" = some 2 ∧ class_mapping "D40" = some 3) ∧
    (∀ s : String, s ∉ (["D00", "D10", "D20", "D40"] : List String) →
      class_mapping s = none) ∧
    (∀ (x : RawXml) (w h : ℤ) (boxes : List Box),
      x.width = some w → x.height = some h →
      parse_voc_annotation x = .ok boxes →
      List.Forall₂ (fun o b => toBox w h o = some b)
        (x.objects.filter (fun o => (class_mapping o.name).isSome)) boxes) ∧
    (∀ (pre post : List VocObject) (o : VocObject) (wd ht : Option ℤ)
        (wf : Bool), class_mapping o.name = none →
      parse_voc_annotation { wellFormed := wf, width := wd, height := ht
                           , objects := pre ++ o :: post } =
      parse_voc_annotation { wellFormed := wf, width := wd, height := ht
                           , objects := pre ++ post }) := by
  refine ⟨⟨rfl, rfl, rfl, rfl⟩, ?_, ?_, ?_⟩
  · intro s hs
    simp only [List.mem_cons, List.not_mem_nil, or_false, not_or] at hs
    rw [class_mapping, if_neg hs.1, if_neg hs.2.1, if_neg hs.2.2.1,
        if_neg hs.2.2.2]
  · intro x w h boxes hw hh hp
    unfold parse_voc_annotation at hp
    cases hwf : x.wellFormed with
    | false => rw [hwf] at hp; simp at hp
    | true =>
        rw [hwf, hw, hh] at hp
        simp only [Bool.true_eq_false, if_false, Except.ok.injEq] at hp
        subst hp
        have hf : x.objects.filter (fun o => (class_mapping o.name).isSome)
            = x.objects.filter (fun o => (toBox w h o).isSome) :=
          List.filter_congr (fun o _ => by rw [toBox_isSome])
        rw [hf]
        exact forall2_filter_filterMap (toBox w h) x.objects
  · intro pre post o wd ht wf hcm
    unfold parse_voc_annotation
    cases wf with
    | false => rfl
    | true =>
        cases wd with
        | none => rfl
        | some w =>
            cases ht with
            | none => rfl
            | some h =>
                simp only [List.filterMap_append, List.filterMap_cons]
                rw [toBox, hcm]

/-- Witness for C4: an object labelled `X99` is silently dropped. -/
theorem c4_unmapped_objects_dropped_witness :
    parse_voc_annotation
      { wellFormed := true, width := some 640, height := some 480
      , objects := [] ++ { name := "X99", xmin := 1, ymin := 2, xmax := 3
                         , ymax := 4 } :: [] } =
    parse_voc_annotation
      { wellFormed := true, width := some 640, height := some 480
      , objects := [] ++ [] } :=
  c4_unmapped_objects_dropped.2.2.2 [] []
    { name := "X99", xmin := 1, ymin := 2, xmax := 3, ymax := 4 }
    (some 640) (some 480) true rfl

/-- Claim C3 (amended): for `val_split` within `[0, 1]` the split sizes
follow `train_count = floor(N * (1 - val_split))` in exact arithmetic,
`val_count = N - train_count`, the two sizes sum to `N`, the training set
is the prefix of the shuffled list and the validation set its suffix. -/
theorem c3_split_sizes (α : Type) (xs : List α) (v : ℚ)
    (h0 : 0 ≤ v) (h1 : v ≤ 1) :
    train_count xs.length v = ⌊(xs.length : ℚ) * (1 - v)⌋ ∧
    pySliceTake xs (train_count xs.length v)
      = xs.take (train_count xs.length v).toNat ∧
    pySliceDrop xs (train_count xs.length v)
      = xs.drop (train_count xs.length v).toNat ∧
    (pySliceTake xs (train_count xs.length v)).length
      = (train_count xs.length v).toNat ∧
    (pySliceDrop xs (train_count xs.length v)).length
      = xs.length - (train_count xs.length v).toNat ∧
    (pySliceTake xs (train_count xs.length v)).length
      + (pySliceDrop xs (train_count xs.length v)).length = xs.length := by
  have hq0 : (0 : ℚ) ≤ (xs.length : ℚ) * (1 - v) :=
    mul_nonneg (Nat.cast_nonneg xs.length) (by linarith)
  have hqn : (xs.length : ℚ) * (1 - v) ≤ (xs.length : ℚ) :=
    mul_le_of_le_one_right (Nat.cast_nonneg xs.length) (by linarith)
  have htc : train_count xs.length v = ⌊(xs.length : ℚ) * (1 - v)⌋ := by
    rw [train_count, pyInt, if_neg (not_lt.mpr hq0)]
  have ht0 : 0 ≤ train_count xs.length v := by
    rw [htc]; exact Int.floor_nonneg.mpr hq0
  have htn : train_count xs.length v ≤ (xs.length : ℤ) := by
    rw [htc]
    calc ⌊(xs.length : ℚ) * (1 - v)⌋ ≤ ⌊(xs.length : ℚ)⌋ :=
          Int.floor_le_floor hqn
      _ = (xs.length : ℤ) := Int.floor_natCast xs.length
  have htn2 : (train_count xs.length v).toNat ≤ xs.length :=
    Int.toNat_le.mpr htn
  have hs : sliceIdx xs.length (train_count xs.length v)
      = (train_count xs.length v).toNat := by
    rw [sliceIdx, if_neg (not_lt.mpr ht0)]
    exact min_eq_left htn2
  refine ⟨htc, ?_, ?_, ?_, ?_, ?_⟩
  · rw [pySliceTake, hs]
  · rw [pySliceDrop, hs]
  · rw [pySliceTake, hs, List.length_take]; exact min_eq_left htn2
  · rw [pySliceDrop, hs, List.length_drop]
  · rw [pySliceTake, pySliceDrop, hs, List.length_take, List.length_drop,
        min_eq_left htn2]
    exact Nat.add_sub_cancel' htn2

/-- Counterexample for C3 as frozen: for `val_split = 3/2` (the CLI does
not validate the range) the code's truncation toward zero disagrees with
the floor the claim states, already at one annotation file. -/
theorem c3_split_sizes_cex :
    train_count 1 ((3 : ℚ)/2) ≠ ⌊((1 : ℕ) : ℚ) * (1 - (3 : ℚ)/2)⌋ := by
  have hl : train_count 1 ((3 : ℚ)/2) = 0 := by
    rw [train_count, pyInt, if_pos (by norm_num)]
    norm_num
  have hr : ⌊((1 : ℕ) : ℚ) * (1 - (3 : ℚ)/2)⌋ = -1 := by norm_num
  rw [hl, hr]; decide

/-- Witness for C3 on five files and the default split 1/5. -/
theorem c3_split_sizes_witness :
    train_count (List.length [0, 1, 2, 3, 4]) (1/5)
      = ⌊((List.length [0, 1, 2, 3, 4] : ℕ) : ℚ) * (1 - 1/5)⌋ ∧
    pySliceTake [0, 1, 2, 3, 4] (train_count (List.length [0, 1, 2, 3, 4]) (1/5))
      = List.take (train_count (List.length [0, 1, 2, 3, 4]) (1/5)).toNat
          [0, 1, 2, 3, 4] ∧
    pySliceDrop [0, 1, 2, 3, 4] (train_count (List.length [0, 1, 2, 3, 4]) (1/5))
      = List.drop (train_count (List.length [0, 1, 2, 3, 4]) (1/5)).toNat
          [0, 1, 2, 3, 4] ∧
    (pySliceTake [0, 1, 2, 3, 4]
        (train_count (List.length [0, 1, 2, 3, 4]) (1/5))).length
      = (train_count (List.length [0, 1, 2, 3, 4]) (1/5)).toNat ∧
    (pySliceDrop [0, 1, 2, 3, 4]
        (train_count (List.length [0, 1, 2, 3, 4]) (1/5))).length
      = List.length [0, 1, 2, 3, 4]
          - (train_count (List.length [0, 1, 2, 3, 4]) (1/5)).toNat ∧
    (pySliceTake [0, 1, 2, 3, 4]
        (train_count (List.length [0, 1, 2, 3, 4]) (1/5))).length
      + (pySliceDrop [0, 1, 2, 3, 4]
          (train_count (List.length [0, 1, 2, 3, 4]) (1/5))).length
      = List.length [0, 1, 2, 3, 4] :=
  c3_split_sizes ℕ [0, 1, 2, 3, 4] (1/5) (by norm_num) (by norm_num)

/-- Claim C10: for every list and every `val_split` — also outside
`(0, 1)`, where the split point may be negative or exceed the length —
the training prefix and validation suffix concatenate back to the whole
list: no file is duplicated or lost. -/
theorem c10_split_partition (α : Type) (xs : List α) (v : ℚ) :
    pySliceTake xs (train_count xs.length v)
      ++ pySliceDrop xs (train_count xs.length v) = xs ∧
    ∀ i : ℤ, pySliceTake xs i ++ pySliceDrop xs i = xs := by
  constructor
  · rw [pySliceTake, pySliceDrop]; exact List.take_append_drop _ xs
  · intro i; rw [pySliceTake, pySliceDrop]; exact List.take_append_drop _ xs

/-- Claim C5: an annotation whose parsed box list is empty is skipped by
the File-Set Processor — no image copy, no label file, no exception —
even though its matching image exists. -/
theorem c5_empty_box_list_skipped (ex : String → Bool) (dir base : String)
    (xml : RawXml) (p : String) (rest : List (String × RawXml))
    (himg : findImage ex dir base = some p)
    (hparse : parse_voc_annotation xml = .ok []) :
    process_set ex dir ((base, xml) :: rest) = process_set ex dir rest := by
  simp only [process_set, himg, hparse, List.isEmpty_nil, if_true]

/-- Witness for C5: one unmapped-label annotation with an existing image
produces no output at all. -/
theorem c5_empty_box_list_skipped_witness :
    process_set exJpg "imgs" [("a",
      { wellFormed := true, width := some 10, height := some 10
      , objects := [{ name := "X99", xmin := 1, ymin := 1, xmax := 2
                    , ymax := 2 }] })] = process_set exJpg "imgs" [] :=
  c5_empty_box_list_skipped exJpg "imgs" "a" _ "imgs/a.jpg" [] rfl rfl

/-- Claim C7: the matching image is sought as `.jpg`, then `.jpeg`, then
`.png`, first existing file wins; if none exists the entry is skipped
without raising and processing continues with the rest. -/
theorem c7_image_extension_order :
    (∀ (ex : String → Bool) (dir base : String),
      (ex (joinPath dir (base ++ ".jpg")) = true →
        findImage ex dir base = some (joinPath dir (base ++ ".jpg"))) ∧
      (ex (joinPath dir (base ++ ".jpg")) = false →
       ex (joinPath dir (base ++ ".jpeg")) = true →
        findImage ex dir base = some (joinPath dir (base ++ ".jpeg"))) ∧
      (ex (joinPath dir (base ++ ".jpg")) = false →
       ex (joinPath dir (base ++ ".jpeg")) = false →
       ex (joinPath dir (base ++ ".png")) = true →
        findImage ex dir base = some (joinPath dir (base ++ ".png"))) ∧
      (ex (joinPath dir (base ++ ".jpg")) = false →
       ex (joinPath dir (base ++ ".jpeg")) = false →
       ex (joinPath dir (base ++ ".png")) = false →
        findImage ex dir base = none)) ∧
    (∀ (ex : String → Bool) (dir base : String) (xml : RawXml)
        (rest : List (String × RawXml)),
      findImage ex dir base = none →
      process_set ex dir ((base, xml) :: rest) = process_set ex dir rest) := by
  constructor
  · intro ex dir base
    refine ⟨?_, ?_, ?_, ?_⟩
    · intro h1; simp [findImage, imageExts, List.find?, h1]
    · intro h1 h2; simp [findImage, imageExts, List.find?, h1, h2]
    · intro h1 h2 h3; simp [findImage, imageExts, List.find?, h1, h2, h3]
    · intro h1 h2 h3; simp [findImage, imageExts, List.find?, h1, h2, h3]
  · intro ex dir base xml rest hnone
    simp only [process_set, hnone]

/-- Witness for C7: with only `d/b.jpeg` on disk, the `.jpeg` candidate is
chosen (after `.jpg` fails), and with nothing on disk the entry is
skipped. -/
theorem c7_image_extension_order_witness :
    findImage (fun s => s == "d/b.jpeg") "d" "b"
      = some (joinPath "d" ("b" ++ ".jpeg")) ∧
    process_set (fun _ => false) "d" [("b", badXml)]
      = process_set (fun _ => false) "d" [] :=
  ⟨(c7_image_extension_order.1 (fun s => s == "d/b.jpeg") "d" "b").2.1 rfl rfl,
   c7_image_extension_order.2 (fun _ => false) "d" "b" badXml [] rfl⟩

theorem convert_subdir_skip (sh : List (String × RawXml) → List (String × RawXml))
    (v : ℚ) (sd : Subdir)
    (h : sd.hasTrain = false ∨ sd.dirExists "images" = false ∨
         findAnnoDir sd.dirExists = none) :
    convert_subdir sh v sd = .ok ([], []) := by
  unfold convert_subdir
  rcases h with h1 | h2 | h3
  · rw [if_pos h1]
  · by_cases h1 : sd.hasTrain = false
    · rw [if_pos h1]
    · rw [if_neg h1, if_pos h2]
  · by_cases h1 : sd.hasTrain = false
    · rw [if_pos h1]
    · by_cases h2 : sd.dirExists "images" = false
      · rw [if_neg h1, if_pos h2]
      · rw [if_neg h1, if_neg h2, h3]

theorem process_set_ok (ex : String → Bool) (dir : String)
    (entries : List (String × RawXml))
    (h : ∀ p ∈ entries, succeeds ( parse_voc_annotation p.2) = true) :
    succeeds (process_set ex dir entries) = true := by
  induction entries with
  | nil => rfl
  | cons e rest ih =>
      obtain ⟨base, xml⟩ := e
      have hhead := h (base, xml) (List.mem_cons_self _ _)
      have ihh := ih (fun p hp => h p (List.mem_cons_of_mem _ hp))
      cases hf : findImage ex dir base with
      | none => simp only [process_set, hf]; exact ihh
      | some imgPath =>
          cases hparse : parse_voc_annotation xml with
          | error e2 => rw [hparse] at hhead; simp [succeeds] at hhead
          | ok boxes =>
              by_cases hb : boxes.isEmpty = true
              · simp only [process_set, hf, hparse, if_pos hb]; exact ihh
              · cases hps : process_set ex dir rest with
                | error e2 => rw [hps] at ihh; simp [succeeds] at ihh
                | ok outs =>
                    simp only [process_set, hf, hparse, if_neg hb, hps]
                    rfl

theorem convert_subdir_ok
    (sh : List (String × RawXml) → List (String × RawXml)) (v : ℚ)
    (sd : Subdir)
    (h : ∀ (d : String) (p : String × RawXml), p ∈ sh (sd.xmlIn d) →
      succeeds ( parse_voc_annotation p.2) = true) :
    succeeds (convert_subdir sh v sd) = true := by
  by_cases h1 : sd.hasTrain = false
  · simp only [convert_subdir, if_pos h1]; rfl
  · by_cases h2 : sd.dirExists "images" = false
    · simp only [convert_subdir, if_neg h1, if_pos h2]; rfl
    · cases h3 : findAnnoDir sd.dirExists with
      | none => simp only [convert_subdir, if_neg h1, if_neg h2, h3]; rfl
      | some d =>
          by_cases h4 : (sd.xmlIn d).isEmpty = true
          · simp only [convert_subdir, if_neg h1, if_neg h2, h3, if_pos h4]
            rfl
          · have hTr : succeeds (process_set sd.imageExists sd.imagesDir
                (pySliceTake (sh (sd.xmlIn d))
                  (train_count (sh (sd.xmlIn d)).length v))) = true :=
              process_set_ok _ _ _
                (fun p hp => h d p (List.take_subset _ _ hp))
            cases hT2 : process_set sd.imageExists sd.imagesDir
                (pySliceTake (sh (sd.xmlIn d))
                  (train_count (sh (sd.xmlIn d)).length v)) with
            | error e2 => rw [hT2] at hTr; simp [succeeds] at hTr
            | ok tr =>
                have hVa : succeeds (process_set sd.imageExists sd.imagesDir
                    (pySliceDrop (sh (sd.xmlIn d))
                      (train_count (sh (sd.xmlIn d)).length v))) = true :=
                  process_set_ok _ _ _
                    (fun p hp => h d p (List.drop_subset _ _ hp))
                cases hV2 : process_set sd.imageExists sd.imagesDir
                    (pySliceDrop (sh (sd.xmlIn d))
                      (train_count (sh (sd.xmlIn d)).length v)) with
                | error e2 => rw [hV2] at hVa; simp [succeeds] at hVa
                | ok va =>
                    simp only [convert_subdir, if_neg h1, if_neg h2, h3,
                      if_neg h4, hT2, hV2]
                    rfl

/-- Claim C6: the annotation folder is the first existing of
`annotations`, `annotation`, `Annotations`, `xmls`, tried in that order
against the subdirectory's `train` folder, and any entry actually
processed required the `train` folder, its `images` subfolder and such an
annotation folder to exist. -/
theorem c6_anno_folder_priority :
    (∀ ex : String → Bool,
      (ex "annotations" = true → findAnnoDir ex = some "annotations") ∧
      (ex "annotations" = false → ex "annotation" = true →
        findAnnoDir ex = some "annotation") ∧
      (ex "annotations" = false → ex "annotation" = false →
       ex "Annotations" = true → findAnnoDir ex = some "Annotations") ∧
      (ex "annotations" = false → ex "annotation" = false →
       ex "Annotations" = false → ex "xmls" = true →
        findAnnoDir ex = some "xmls") ∧
      (ex "annotations" = false → ex "annotation" = false →
       ex "Annotations" = false → ex "xmls" = false →
        findAnnoDir ex = none)) ∧
    (∀ (sh : List (String × RawXml) → List (String × RawXml)) (v : ℚ)
        (sd : Subdir) (tr va : List FileOutput),
      convert_subdir sh v sd = .ok (tr, va) → ¬(tr = [] ∧ va = []) →
      sd.hasTrain = true ∧ sd.dirExists "images" = true ∧
        (findAnnoDir sd.dirExists).isSome = true) := by
  constructor
  · intro ex
    refine ⟨?_, ?_, ?_, ?_, ?_⟩
    · intro h1; simp [findAnnoDir, annoCandidates, List.find?, h1]
    · intro h1 h2; simp [findAnnoDir, annoCandidates, List.find?, h1, h2]
    · intro h1 h2 h3
      simp [findAnnoDir, annoCandidates, List.find?, h1, h2, h3]
    · intro h1 h2 h3 h4
      simp [findAnnoDir, annoCandidates, List.find?, h1, h2, h3, h4]
    · intro h1 h2 h3 h4
      simp [findAnnoDir, annoCandidates, List.find?, h1, h2, h3, h4]
  · intro sh v sd tr va hp hne
    cases hT : sd.hasTrain with
    | false =>
        rw [convert_subdir_skip sh v sd (Or.inl hT)] at hp
        simp only [Except.ok.injEq, Prod.mk.injEq] at hp
        exact absurd ⟨hp.1.symm, hp.2.symm⟩ hne
    | true =>
        cases hI : sd.dirExists "images" with
        | false =>
            rw [convert_subdir_skip sh v sd (Or.inr (Or.inl hI))] at hp
            simp only [Except.ok.injEq, Prod.mk.injEq] at hp
            exact absurd ⟨hp.1.symm, hp.2.symm⟩ hne
        | true =>
            cases hA : findAnnoDir sd.dirExists with
            | none =>
                rw [convert_subdir_skip sh v sd (Or.inr (Or.inr hA))] at hp
                simp only [Except.ok.injEq, Prod.mk.injEq] at hp
                exact absurd ⟨hp.1.symm, hp.2.symm⟩ hne
            | some d => exact ⟨rfl, rfl, rfl⟩

/-- Witness for C6: when only the folder named `annotation` exists, it is
selected (the higher-priority `annotations` having failed). -/
theorem c6_anno_folder_priority_witness :
    findAnnoDir (fun s => s == "annotation") = some "annotation" :=
  (c6_anno_folder_priority.1 (fun s => s == "annotation")).2.1 rfl rfl

/-- Claim C9: a dataset subdirectory whose `train` folder lacks the
`images` subfolder or all four recognized annotation-folder names is
skipped entirely: empty output for both splits and no exception. -/
theorem c9_missing_folders_skip
    (sh : List (String × RawXml) → List (String × RawXml)) (v : ℚ)
    (sd : Subdir) (hT : sd.hasTrain = true)
    (h : sd.dirExists "images" = false ∨ findAnnoDir sd.dirExists = none) :
    convert_subdir sh v sd = .ok ([], []) :=
  convert_subdir_skip sh v sd (Or.inr h)

/-- Witness for C9 on a subdirectory with an empty `train` folder. -/
theorem c9_missing_folders_skip_witness :
    convert_subdir id (1/5) emptySubdir = .ok ([], []) :=
  c9_missing_folders_skip id (1/5) emptySubdir rfl (Or.inl rfl)

/-- Claim C8: malformed XML or a missing `size` field makes the parser
raise; the error propagates uncaught through the File-Set Processor and
the orchestrator and aborts the run, while the per-item recoverable
conditions (missing folders, no XML files, missing image, empty box list)
never raise. -/
theorem c8_parse_errors_propagate :
    (∀ x : RawXml, x.wellFormed = false →
      parse_voc_annotation x = .error .xmlSyntaxError) ∧
    (∀ x : RawXml, x.wellFormed = true → x.width = none →
      parse_voc_annotation x = .error (.missingField "size/width")) ∧
    (∀ (x : RawXml) (w : ℤ), x.wellFormed = true → x.width = some w →
      x.height = none →
      parse_voc_annotation x = .error (.missingField "size/height")) ∧
    (∀ (ex : String → Bool) (dir base : String) (xml : RawXml) (p : String)
        (rest : List (String × RawXml)) (e : VocError),
      findImage ex dir base = some p →
      parse_voc_annotation xml = .error e →
      process_set ex dir ((base, xml) :: rest) = .error e) ∧
    (∀ (sh : List (String × RawXml) → List (String × RawXml)) (v : ℚ)
        (sd : Subdir) (d : String) (e : VocError),
      sd.hasTrain = true → sd.dirExists "images" = true →
      findAnnoDir sd.dirExists = some d → (sd.xmlIn d).isEmpty = false →
      process_set sd.imageExists sd.imagesDir
        (pySliceTake (sh (sd.xmlIn d))
          (train_count (sh (sd.xmlIn d)).length v)) = .error e →
      convert_subdir sh v sd = .error e) ∧
    (∀ (sh : List (String × RawXml) → List (String × RawXml)) (v : ℚ)
        (sd : Subdir) (rest : List Subdir) (e : VocError),
      convert_subdir sh v sd = .error e →
      convert_to_yolo sh v (sd :: rest) = .error e) ∧
    (∀ (sh : List (String × RawXml) → List (String × RawXml)) (v : ℚ)
        (sd : Subdir),
      (∀ (d : String) (p : String × RawXml), p ∈ sh (sd.xmlIn d) →
        succeeds ( parse_voc_annotation p.2) = true) →
      succeeds (convert_subdir sh v sd) = true) := by
  refine ⟨?_, ?_, ?_, ?_, ?_, ?_, convert_subdir_ok⟩
  · intro x h
    unfold parse_voc_annotation
    rw [h]
    rfl
  · intro x h hw
    unfold parse_voc_annotation
    rw [h, hw]
    rfl
  · intro x w h hw hh
    unfold parse_voc_annotation
    rw [h, hw, hh]
    rfl
  · intro ex dir base xml p rest e himg hparse
    simp only [process_set, himg, hparse]
  · intro sh v sd d e hT hI h3 h4 hps
    have h1 : ¬ sd.hasTrain = false := by rw [hT]; simp
    have h2 : ¬ sd.dirExists "images" = false := by rw [hI]; simp
    have h4n : ¬ (sd.xmlIn d).isEmpty = true := by rw [h4]; simp
    simp only [convert_subdir, if_neg h1, if_neg h2, h3, if_neg h4n, hps]
  · intro sh v sd rest e h
    simp only [convert_to_yolo, h]

/-- Witness for C8: one malformed annotation with an existing image makes
the File-Set Processor abort with the XML syntax error. -/
theorem c8_parse_errors_propagate_witness :
    process_set exJpg "imgs" [("a", badXml)] = .error VocError.xmlSyntaxError :=
  c8_parse_errors_propagate.2.2.2.1 exJpg "imgs" "a" badXml "imgs/a.jpg" []
    VocError.xmlSyntaxError rfl rfl

end VocYolo
